import Mathlib

/-!
Verification of the pagination and URL-state logic of `gg_posts.js`
(class `PostsDisplay`).

The JavaScript is shallowly embedded: JS numbers are modelled as exact
integers plus an explicit NaN.  Every number the code manipulates is an
array length (below the JS array bound 2^32), a `parseInt` result, or a sum,
difference or product of those, so all defined values are exactly
representable in IEEE doubles and integer arithmetic is faithful; NaN is
kept explicit because `parseInt` produces it on non-numeric input and the
code lets it flow through `Math.min`, `Math.ceil` and `Array.slice`.
DOM nodes are modelled by their data content (which link elements a
pagination bar holds, which posts get rendered); `postToElem` is pure
templating that consumes one post, so posts stay an abstract type `α`.
-/

namespace GgPosts

/-- A JavaScript number as used by this program: an exact integer or NaN. -/
inductive JNum where
  | int (n : Int)
  | nan
deriving DecidableEq, Repr

/-- JS addition; NaN propagates. -/
def jadd : JNum → JNum → JNum
  | .int a, .int b => .int (a + b)
  | _, _ => .nan

/-- JS subtraction; NaN propagates. -/
def jsub : JNum → JNum → JNum
  | .int a, .int b => .int (a - b)
  | _, _ => .nan

/-- JS multiplication; NaN propagates. -/
def jmul : JNum → JNum → JNum
  | .int a, .int b => .int (a * b)
  | _, _ => .nan

/-- Math.min: returns NaN when either argument is NaN. -/
def jmin : JNum → JNum → JNum
  | .int a, .int b => .int (min a b)
  | _, _ => .nan

/-- Math.max: returns NaN when either argument is NaN. -/
def jmax : JNum → JNum → JNum
  | .int a, .int b => .int (max a b)
  | _, _ => .nan

/-- JS truthiness of a number: 0 (and -0) and NaN are falsy. -/
def jtruthy : JNum → Bool
  | .int n => n != 0
  | .nan => false

/-- Strict equality on numbers: NaN compares unequal to everything. -/
def jeqStrict : JNum → JNum → Bool
  | .int a, .int b => a == b
  | _, _ => false

/-- Comparison a > b; false when either side is NaN. -/
def jgt : JNum → JNum → Bool
  | .int a, .int b => decide (b < a)
  | _, _ => false

/-- Comparison a < b; false when either side is NaN. -/
def jlt : JNum → JNum → Bool
  | .int a, .int b => decide (a < b)
  | _, _ => false

/-- Comparison a <= b; false when either side is NaN. -/
def jle : JNum → JNum → Bool
  | .int a, .int b => decide (a ≤ b)
  | _, _ => false

/-- String(n) for the numbers this program prints: integers in the
non-exponential range print as plain decimal, NaN prints as "NaN". -/
def jnumToString : JNum → String
  | .int n => toString n
  | .nan => "NaN"

/-- Whitespace skipped by parseInt (the usual ASCII cases). -/
def jsIsSpace (c : Char) : Bool :=
  c == ' ' || c == '\t' || c == '\n' || c == '\r'

/-- Value of a digit character in the given radix (10 or 16), if any. -/
def digitVal (radix : Nat) (c : Char) : Option Nat :=
  let v :=
    if '0' ≤ c ∧ c ≤ '9' then some (c.toNat - '0'.toNat)
    else if 'a' ≤ c ∧ c ≤ 'f' then some (c.toNat - 'a'.toNat + 10)
    else if 'A' ≤ c ∧ c ≤ 'F' then some (c.toNat - 'A'.toNat + 10)
    else none
  match v with
  | some d => if d < radix then some d else none
  | none => none

/-- The longest run of digits of the given radix at the head of the list. -/
def leadingDigits (radix : Nat) : List Char → List Nat
  | [] => []
  | c :: cs =>
    match digitVal radix c with
    | some d => d :: leadingDigits radix cs
    | none => []

/-- JavaScript parseInt (no radix argument) on a string: skip leading
whitespace, optional sign, optional 0x/0X hex marker, read the longest run
of digits and ignore the rest; NaN when that run is empty. -/
def parseIntStr (s : String) : JNum :=
  let cs := s.toList.dropWhile jsIsSpace
  let signAndRest : Int × List Char :=
    match cs with
    | '-' :: rest => (-1, rest)
    | '+' :: rest => (1, rest)
    | _ => (1, cs)
  let radixAndRest : Nat × List Char :=
    match signAndRest.2 with
    | '0' :: 'x' :: rest => (16, rest)
    | '0' :: 'X' :: rest => (16, rest)
    | other => (10, other)
  match leadingDigits radixAndRest.1 radixAndRest.2 with
  | [] => JNum.nan
  | ds =>
    JNum.int (signAndRest.1 *
      Int.ofNat (ds.foldl (fun a d => a * radixAndRest.1 + d) 0))

/-- The argument the code hands to parseInt: `q || d`, where q is the query
value (a string, or null when the parameter is absent) and d a numeric
default.  A present but empty string is falsy, so the default wins there
too. -/
inductive JSVal where
  | str (s : String)
  | num (n : JNum)
deriving DecidableEq, Repr

/-- The `q || d` coalescing itself. -/
def jsOr (q : Option String) (d : JNum) : JSVal :=
  match q with
  | some s => if s = "" then .num d else .str s
  | none => .num d

/-- parseInt on a string-or-number argument: a number is first converted to
its string form (String(20) = "20", String(NaN) = "NaN"). -/
def jparseInt : JSVal → JNum
  | .str s => parseIntStr s
  | .num n => parseIntStr (jnumToString n)

/-- URLSearchParams modelled as an ordered list of key/value pairs. -/
abbrev Params := List (String × String)

/-- URLSearchParams.get: the value of the first pair with the key, else
null. -/
def paramsGet (ps : Params) (k : String) : Option String :=
  match ps.find? (fun kv => kv.fst == k) with
  | some kv => some kv.snd
  | none => none

/-- URLSearchParams.set: overwrite the first occurrence of the key in place
and drop later occurrences, or append when the key is absent. -/
def paramsSet (ps : Params) (k v : String) : Params :=
  match ps with
  | [] => [(k, v)]
  | kv :: rest =>
    if kv.fst = k then (k, v) :: rest.filter (fun p => p.fst ≠ k)
    else kv :: paramsSet rest k v

/-- The state of a PostsDisplay instance, restricted to the fields the
pagination logic reads.  parentElem, indexBaseUrl and baseUrl handling are
document templating; indexBaseUrl is kept because generated links embed
it. -/
structure PostsView (α : Type) where
  posts : List α
  urlParams : Params
  indexBaseUrl : String
  perPage : JNum
  numPages : JNum
  pagesFromEnd : JNum
deriving DecidableEq, Repr

/-- parseInt(Math.ceil(len / perPage)) for an array length len.  IEEE
division of an array length (below 2^32) by an integer rounds to a float
whose ceiling is the exact rational ceiling; len/0 is ±Infinity or NaN and
len/NaN is NaN, and parseInt of the strings "Infinity", "-Infinity" and
"NaN" is NaN.  The exact ceiling of len/q over the integers is
-((-len) fdiv q). -/
def numPagesOf (len : Nat) (perPage : JNum) : JNum :=
  match perPage with
  | .nan => .nan
  | .int q => if q = 0 then .nan else .int (-((-(len : Int)).fdiv q))

/-- The PostsDisplay constructor: derive perPage, numPages and the clamped
pagesFromEnd from the query parameters, exactly as the source does. -/
def mkView {α : Type} (posts : List α) (urlParams : Params)
    (indexBaseUrl : String) : PostsView α :=
  let perPage := jparseInt (jsOr (paramsGet urlParams "posts_per_page") (.int 20))
  let numPages := numPagesOf posts.length perPage
  let defaultPagesFromEnd := jmax (.int 0) (jsub numPages (.int 1))
  let pagesFromEnd :=
    jmin defaultPagesFromEnd
      (jparseInt (jsOr (paramsGet urlParams "posts_pages_from_end") defaultPagesFromEnd))
  { posts := posts, urlParams := urlParams, indexBaseUrl := indexBaseUrl,
    perPage := perPage, numPages := numPages, pagesFromEnd := pagesFromEnd }

/-- A page link element: either a plain span label (the current page) or an
anchor whose href is indexBaseUrl plus the rewritten query parameters. -/
inductive PageElem where
  | label (text : String)
  | anchor (text : String) (hrefBase : String) (hrefParams : Params)
deriving DecidableEq, Repr

/-- getLinkElemForPage in state-passing form.  The source method assigns no
field of `this`: it copies this.urlParams into a fresh URLSearchParams and
calls set on the copy, so the view comes back exactly as it went in. -/
def getLinkElemForPageS {α : Type} (v : PostsView α) (page : JNum)
    (optLabel : Option String) : PostsView α × PageElem :=
  let text :=
    match optLabel with
    | some s => if s = "" then jnumToString page else s
    | none => jnumToString page
  let newPagesFromEnd := jsub v.numPages page
  if jeqStrict newPagesFromEnd v.pagesFromEnd then
    (v, .label text)
  else
    let params := paramsSet v.urlParams "posts_pages_from_end" (jnumToString newPagesFromEnd)
    (v, .anchor text v.indexBaseUrl params)

/-- The element produced by getLinkElemForPage. -/
def getLinkElemForPage {α : Type} (v : PostsView α) (page : JNum)
    (optLabel : Option String) : PageElem :=
  (getLinkElemForPageS v page optLabel).2

/-- The loop bound `for page = 1; page <= numPages; page++`: pages 1..k for
an integer k, no iterations when numPages is NaN or below 1. -/
def pageNumbers : JNum → List Int
  | .int k => (List.range k.toNat).map (fun i => (i : Int) + 1)
  | .nan => []

/-- A pagination bar, modelled by its sequence of link elements (the
leading "Page: " text node is constant). -/
structure PaginationBar where
  links : List PageElem
deriving DecidableEq, Repr

/-- getPaginationBar: a conditional Prev link, the numbered links 1 through
numPages, and a conditional Next link. -/
def getPaginationBar {α : Type} (v : PostsView α) : PaginationBar :=
  let currentPage := jsub v.numPages v.pagesFromEnd
  let prevLink :=
    if jgt currentPage (.int 1) then
      [getLinkElemForPage v (jsub currentPage (.int 1)) (some "Prev")]
    else []
  let numberLinks := (pageNumbers v.numPages).map (fun p => getLinkElemForPage v (.int p) none)
  let nextLink :=
    if jlt currentPage v.numPages then
      [getLinkElemForPage v (jadd currentPage (.int 1)) (some "Next")]
    else []
  ⟨prevLink ++ numberLinks ++ nextLink⟩

/-- ToIntegerOrInfinity plus clamping, as Array.prototype.slice applies to
each index argument: NaN becomes 0, a negative index counts from the end,
and both ends clamp into [0, len]. -/
def jsSliceIndex (len : Nat) : JNum → Nat
  | .nan => 0
  | .int k => if k < 0 then ((len : Int) + k).toNat else min k.toNat len

/-- Array.prototype.slice(s, e). -/
def jsSlice {α : Type} (l : List α) (s e : JNum) : List α :=
  (l.take (jsSliceIndex l.length e)).drop (jsSliceIndex l.length s)

/-- The slice start computed by displayPosts:
Math.max(0, lastIndex - perPage * (1 + pagesFromEnd)) with
lastIndex = posts.length - 1. -/
def sliceStartJ {α : Type} (v : PostsView α) : JNum :=
  jmax (.int 0)
    (jsub (.int ((v.posts.length : Int) - 1))
      (jmul v.perPage (jadd (.int 1) v.pagesFromEnd)))

/-- The slice end computed by displayPosts:
1 + lastIndex - perPage * pagesFromEnd. -/
def sliceEndJ {α : Type} (v : PostsView α) : JNum :=
  jsub (.int (1 + ((v.posts.length : Int) - 1))) (jmul v.perPage v.pagesFromEnd)

/-- A rendered child of the container: a pagination bar or a post card. -/
inductive RElem (α : Type) where
  | bar (b : PaginationBar)
  | post (p : α)
deriving DecidableEq, Repr

/-- displayPosts: clear the container; when numPages is falsy render
nothing; otherwise render the bar, the sliced posts in collection order,
and a clone of the same bar. -/
def displayPosts {α : Type} (v : PostsView α) : List (RElem α) :=
  if jtruthy v.numPages then
    let paginationBar := getPaginationBar v
    RElem.bar paginationBar ::
      ((jsSlice v.posts (sliceStartJ v) (sliceEndJ v)).map RElem.post
        ++ [RElem.bar paginationBar])
  else []

/-- The posts rendered by displayPosts, in rendering order. -/
def shownPosts {α : Type} (v : PostsView α) : List α :=
  (displayPosts v).filterMap (fun e =>
    match e with
    | .post p => some p
    | .bar _ => none)

/-- A fetch response as create consumes it: the ok flag, the status code,
and the body parsed by response.json(), with none standing for a body
json() rejects on. -/
structure FetchResponse (α : Type) where
  ok : Bool
  status : Nat
  json : Option (List α)
deriving DecidableEq, Repr

/-- parentElem.dataset.jsonUrl || "posts.json". -/
def jsonUrlOf (datasetJsonUrl : Option String) : String :=
  match datasetJsonUrl with
  | some s => if s = "" then "posts.json" else s
  | none => "posts.json"

/-- The message of the error thrown on a non-ok response. -/
def fetchErrorMessage (postsUrl : String) (status : Nat) : String :=
  "Failed to fetch posts JSON " ++ postsUrl ++ ": " ++ toString status

/-- PostsDisplay.create: one fetch of the configured URL, a throw on a
non-ok status, response.json() (whose rejection on a malformed body is the
none case), then the constructor. -/
def create {α : Type} (datasetJsonUrl : Option String) (resp : FetchResponse α)
    (urlParams : Params) (indexBaseUrl : String) : Except String (PostsView α) :=
  let postsUrl := jsonUrlOf datasetJsonUrl
  if resp.ok then
    match resp.json with
    | some posts => Except.ok (mkView posts urlParams indexBaseUrl)
    | none => Except.error "SyntaxError: unexpected JSON input"
  else Except.error (fetchErrorMessage postsUrl resp.status)

/-- Whether an Except is the error case. -/
def exceptIsError {β : Type} : Except String β → Bool
  | .error _ => true
  | .ok _ => false

/-- Whether a page element is a plain (non-link) label. -/
def isLabel : PageElem → Bool
  | .label _ => true
  | .anchor _ _ _ => false

/-- The running example of the spec: 45 posts, identified by their index. -/
def samplePosts : List Nat := List.range 45

/-- The spec's explicit example state: perPage 20, pagesFromEnd 0. -/
def viewLast : PostsView Nat :=
  mkView samplePosts [("posts_per_page", "20"), ("posts_pages_from_end", "0")] ""

/-- The same collection one page earlier (pagesFromEnd 1). -/
def viewSecondLast : PostsView Nat :=
  mkView samplePosts [("posts_per_page", "20"), ("posts_pages_from_end", "1")] ""

/-- The same collection at the oldest page (pagesFromEnd 2). -/
def viewFirst : PostsView Nat :=
  mkView samplePosts [("posts_per_page", "20"), ("posts_pages_from_end", "2")] ""

/-- jmin yields an integer only from two integers, and then it is their
minimum. -/
theorem jmin_eq_int {a b : JNum} {k : Int} (h : jmin a b = JNum.int k) :
    ∃ x y : Int, a = JNum.int x ∧ b = JNum.int y ∧ k = min x y := by
  cases a with
  | nan => simp [jmin] at h
  | int x =>
    cases b with
    | nan => simp [jmin] at h
    | int y => exact ⟨x, y, rfl, rfl, by simpa [jmin] using h.symm⟩

/-- The default pagesFromEnd is an integer exactly when numPages is, and
then it is max 0 (numPages - 1). -/
theorem jmax_zero_sub_one_eq_int {np : JNum} {x : Int}
    (h : jmax (JNum.int 0) (jsub np (JNum.int 1)) = JNum.int x) :
    ∃ m : Int, np = JNum.int m ∧ x = max 0 (m - 1) := by
  cases np with
  | nan => simp [jsub, jmax] at h
  | int m => exact ⟨m, rfl, by simpa [jsub, jmax] using h.symm⟩

/-- getLinkElemForPage returns the view it was given. -/
theorem getLinkS_fst {α : Type} (v : PostsView α) (page : JNum)
    (optLabel : Option String) : (getLinkElemForPageS v page optLabel).1 = v := by
  simp only [getLinkElemForPageS]
  split <;> rfl

/-- With a truthy numPages, the rendered posts are exactly the computed
slice of the collection. -/
theorem shownPosts_of_truthy {α : Type} (v : PostsView α)
    (h : jtruthy v.numPages = true) :
    shownPosts v = jsSlice v.posts (sliceStartJ v) (sliceEndJ v) := by
  unfold shownPosts displayPosts
  rw [if_pos h]
  simp [List.filterMap_cons, List.filterMap_append, List.filterMap_map, Function.comp]
  exact List.filterMap_some _

/-- An empty collection always has a falsy numPages, whatever perPage is. -/
theorem jtruthy_numPagesOf_zero (pp : JNum) : jtruthy (numPagesOf 0 pp) = false := by
  cases pp with
  | nan => rfl
  | int q =>
    by_cases hq : q = 0
    · simp [numPagesOf, hq, jtruthy]
    · simp [numPagesOf, hq, jtruthy]

/-- C1: with 45 posts, perPage 20 and posts_pages_from_end 0, the code does
not render the claimed window items[25:45] of 20 posts: the start bound is
computed from lastIndex = length - 1, so the rendered window is items[24:45]
— 21 posts, one more than the claimed max(0, end - perPage) start. -/
theorem c1_last_page_window :
    sliceStartJ viewLast = JNum.int 24 ∧
    sliceEndJ viewLast = JNum.int 45 ∧
    shownPosts viewLast = (List.range 45).drop 24 ∧
    (shownPosts viewLast).length = 21 := by
  refine ⟨by decide, by decide, by decide, by decide⟩

/-- C2: the claim that pagesFromEnd always lands in [0, max(0, numPages-1)]
is false: posts_pages_from_end=-1 passes Math.min unclamped from below and
the derived pagesFromEnd is -1, a negative value outside the claimed range
(numPages here is 3). -/
theorem c2_counterexample :
    (mkView (List.range 45)
        [("posts_per_page", "20"), ("posts_pages_from_end", "-1")] ""
      : PostsView Nat).numPages = JNum.int 3 ∧
    (mkView (List.range 45)
        [("posts_per_page", "20"), ("posts_pages_from_end", "-1")] ""
      : PostsView Nat).pagesFromEnd = JNum.int (-1) ∧
    jle (JNum.int 0)
      (mkView (List.range 45)
          [("posts_per_page", "20"), ("posts_pages_from_end", "-1")] ""
        : PostsView Nat).pagesFromEnd = false := by
  refine ⟨by decide, by decide, by decide⟩

/-- C2 (amended): pagesFromEnd is clamped from above only — whenever the
derived pagesFromEnd is an actual number it is at most max(0, numPages - 1)
— but it is not clamped from below: negative input passes through, and
non-numeric input makes it NaN. -/
theorem c2_amended_upper_clamp (α : Type) (posts : List α) (qs : Params)
    (base : String) (k : Int)
    (h : (mkView posts qs base).pagesFromEnd = JNum.int k) :
    ∃ m : Int, (mkView posts qs base).numPages = JNum.int m ∧
      k ≤ max 0 (m - 1) := by
  simp only [mkView] at h ⊢
  obtain ⟨x, y, hx, hy, hk⟩ := jmin_eq_int h
  obtain ⟨m, hm, hxm⟩ := jmax_zero_sub_one_eq_int hx
  refine ⟨m, hm, ?_⟩
  rw [hk, hxm.symm]
  exact min_le_left x y

/-- Witness for the amended C2: with 45 posts, perPage 20 and
posts_pages_from_end=50, the derived pagesFromEnd 2 is bounded by
max(0, numPages - 1). -/
theorem c2_amended_upper_clamp_witness :
    ∃ m : Int,
      (mkView (List.range 45)
          [("posts_per_page", "20"), ("posts_pages_from_end", "50")] ""
        : PostsView Nat).numPages = JNum.int m ∧
      (2 : Int) ≤ max 0 (m - 1) :=
  c2_amended_upper_clamp Nat (List.range 45)
    [("posts_per_page", "20"), ("posts_pages_from_end", "50")] "" 2 (by decide)

/-- C3: the page windows do not partition the collection: with 45 posts and
perPage 20 (numPages = 3), post 24 is rendered both at pagesFromEnd 0 and at
pagesFromEnd 1, and post 4 both at pagesFromEnd 1 and at pagesFromEnd 2 —
adjacent pages overlap by one post because the slice start is computed from
lastIndex = length - 1. -/
theorem c3_pages_overlap :
    viewLast.numPages = JNum.int 3 ∧
    24 ∈ shownPosts viewLast ∧ 24 ∈ shownPosts viewSecondLast ∧
    4 ∈ shownPosts viewSecondLast ∧ 4 ∈ shownPosts viewFirst := by
  refine ⟨by decide, by decide, by decide, by decide, by decide⟩

/-- C4: the claim perPage = max(1, parsed value or 20) is false: a present
non-numeric posts_per_page yields perPage = NaN, not 20 and not positive —
the code applies no max(1, ...) clamp. -/
theorem c4_counterexample :
    (mkView ([] : List Nat) [("posts_per_page", "abc")] "").perPage = JNum.nan ∧
    JNum.nan ≠ JNum.int 20 := by
  refine ⟨by decide, by decide⟩

/-- C4 (amended): perPage is parseInt of the raw parameter with no
positivity clamp: it is 20 when the parameter is absent (or empty), and the
parsed value of the raw string otherwise — possibly NaN, zero or
negative. -/
theorem c4_amended_no_clamp (α : Type) (posts : List α) (qs : Params)
    (base : String) :
    (paramsGet qs "posts_per_page" = none →
      (mkView posts qs base).perPage = JNum.int 20) ∧
    (∀ s : String, paramsGet qs "posts_per_page" = some s → s ≠ "" →
      (mkView posts qs base).perPage = parseIntStr s) := by
  constructor
  · intro h
    simp only [mkView]
    rw [h]
    decide
  · intro s hs hne
    simp only [mkView]
    rw [hs]
    simp [jsOr, hne, jparseInt]

/-- Witness for the amended C4: with no query parameters perPage is 20, and
with posts_per_page=0 it is the parsed 0. -/
theorem c4_amended_no_clamp_witness :
    (mkView ([] : List Nat) [] "").perPage = JNum.int 20 ∧
    (mkView ([] : List Nat) [("posts_per_page", "0")] "").perPage =
      parseIntStr "0" :=
  ⟨(c4_amended_no_clamp Nat [] [] "").1 rfl,
    (c4_amended_no_clamp Nat [] [("posts_per_page", "0")] "").2 "0" rfl
      (by decide)⟩

/-- C6: with an empty post collection displayPosts renders nothing at all —
no pagination bar and no post elements — for every query parameter list,
and (being a total function) without any error. -/
theorem c6_empty_renders_nothing (α : Type) (qs : Params) (base : String) :
    displayPosts (mkView ([] : List α) qs base) = [] := by
  have h : jtruthy (mkView ([] : List α) qs base).numPages = false :=
    jtruthy_numPagesOf_zero _
  unfold displayPosts
  rw [h]
  rfl

/-- C5: for every page number p in 1..numPages, getLinkElemForPage renders
a non-link label exactly when numPages - p equals the current pagesFromEnd,
and an actual anchor link otherwise. -/
theorem c5_current_page_label (α : Type) (v : PostsView α) (m p : Int)
    (hm : v.numPages = JNum.int m) (_h1 : 1 ≤ p) (_h2 : p ≤ m) :
    (isLabel (getLinkElemForPage v (JNum.int p) none) = true ↔
      v.pagesFromEnd = JNum.int (m - p)) := by
  unfold getLinkElemForPage getLinkElemForPageS
  rw [hm]
  cases hpf : v.pagesFromEnd with
  | nan => simp [jsub, jeqStrict, isLabel]
  | int f =>
    by_cases hc : m - p = f
    · simp [jsub, jeqStrict, hc, isLabel]
    · simp [jsub, jeqStrict, hc, isLabel]
      exact fun hf => hc hf.symm

/-- Witness for C5: in the example state (45 posts, perPage 20,
pagesFromEnd 0, numPages 3) page 3 is the current page and renders as a
label. -/
theorem c5_current_page_label_witness :
    isLabel (getLinkElemForPage viewLast (JNum.int 3) none) = true ↔
      viewLast.pagesFromEnd = JNum.int (3 - 3) :=
  c5_current_page_label Nat viewLast 3 3 (by decide) (by decide) (by decide)

/-- C7: the claim that create rejects exactly on a non-success status is
false: a success response whose body fails JSON parsing also makes create
reject. -/
theorem c7_counterexample :
    (⟨true, 200, none⟩ : FetchResponse Nat).ok = true ∧
    exceptIsError (create none (⟨true, 200, none⟩ : FetchResponse Nat) [] "") =
      true := by
  refine ⟨rfl, by decide⟩

/-- C7 (amended): create rejects on a non-success status with an error
message naming the fetched URL and the status code, rejects as well when the
body fails to parse as JSON, and otherwise succeeds with the constructed
view; a single fetch response is consumed, with no retry. -/
theorem c7_amended_error_cases (α : Type) (u : Option String)
    (resp : FetchResponse α) (qs : Params) (base : String) :
    (resp.ok = false →
      create u resp qs base =
        Except.error
          ("Failed to fetch posts JSON " ++ jsonUrlOf u ++ ": " ++
            toString resp.status)) ∧
    (resp.ok = true → resp.json = none →
      exceptIsError (create u resp qs base) = true) ∧
    (∀ posts : List α, resp.ok = true → resp.json = some posts →
      create u resp qs base = Except.ok (mkView posts qs base)) := by
  refine ⟨?_, ?_, ?_⟩
  · intro hok
    simp [create, hok, fetchErrorMessage]
  · intro hok hj
    simp [create, hok, hj, exceptIsError]
  · intro posts hok hj
    simp [create, hok, hj]

/-- Witness for the amended C7: a 404 on the configured URL yields exactly
the descriptive error, and a success response with a well-formed body yields
the constructed view. -/
theorem c7_amended_error_cases_witness :
    create (some "data/posts.json") (⟨false, 404, none⟩ : FetchResponse Nat)
        [] "" =
      Except.error
        ("Failed to fetch posts JSON " ++ jsonUrlOf (some "data/posts.json") ++
          ": " ++ toString 404) ∧
    create (some "data/posts.json")
        (⟨true, 200, some [7]⟩ : FetchResponse Nat) [] "" =
      Except.ok (mkView [7] [] "") :=
  ⟨(c7_amended_error_cases Nat (some "data/posts.json") ⟨false, 404, none⟩
      [] "").1 rfl,
    (c7_amended_error_cases Nat (some "data/posts.json") ⟨true, 200, some [7]⟩
      [] "").2.2 [7] rfl rfl⟩

/-- C8: link generation never changes the view: any sequence of
getLinkElemForPage calls leaves the state fixed, and each call leaves the
posts, urlParams, perPage, numPages and pagesFromEnd fields identical — the
overwritten posts_pages_from_end lives only in the produced anchor, built
from a fresh copy of the stored parameters. -/
theorem c8_frame_state_unchanged (α : Type) (v : PostsView α)
    (calls : List (JNum × Option String)) :
    calls.foldl (fun s c => (getLinkElemForPageS s c.1 c.2).1) v = v ∧
    ∀ page : JNum, ∀ lbl : Option String,
      (getLinkElemForPageS v page lbl).1.posts = v.posts ∧
      (getLinkElemForPageS v page lbl).1.urlParams = v.urlParams ∧
      (getLinkElemForPageS v page lbl).1.perPage = v.perPage ∧
      (getLinkElemForPageS v page lbl).1.numPages = v.numPages ∧
      (getLinkElemForPageS v page lbl).1.pagesFromEnd = v.pagesFromEnd := by
  constructor
  · induction calls generalizing v with
    | nil => rfl
    | cons c cs ih =>
      rw [List.foldl_cons, getLinkS_fst]
      exact ih v
  · intro page lbl
    rw [getLinkS_fst]
    exact ⟨rfl, rfl, rfl, rfl, rfl⟩

/-- C9: a present, non-empty, non-numeric posts_per_page makes perPage and
numPages NaN; displayPosts then takes its falsy-numPages early return and
renders nothing — no pagination bar and no posts — even for a non-empty
collection, and no error occurs (every function involved is total). -/
theorem c9_nonnumeric_perpage (α : Type) (posts : List α) (qs : Params)
    (base : String) (s : String)
    (hget : paramsGet qs "posts_per_page" = some s) (hne : s ≠ "")
    (hnan : parseIntStr s = JNum.nan) :
    (mkView posts qs base).perPage = JNum.nan ∧
    (mkView posts qs base).numPages = JNum.nan ∧
    displayPosts (mkView posts qs base) = [] := by
  have hpp : (mkView posts qs base).perPage = JNum.nan := by
    simp only [mkView]
    rw [hget]
    simp [jsOr, hne, jparseInt, hnan]
  have hnp : (mkView posts qs base).numPages = JNum.nan := by
    simp only [mkView]
    rw [hget]
    simp [jsOr, hne, jparseInt, hnan, numPagesOf]
  refine ⟨hpp, hnp, ?_⟩
  unfold displayPosts
  rw [hnp]
  rfl

/-- Witness for C9: posts_per_page=twenty on a 3-post collection renders
nothing. -/
theorem c9_nonnumeric_perpage_witness :
    (mkView (List.range 3) [("posts_per_page", "twenty")] ""
      : PostsView Nat).perPage = JNum.nan ∧
    (mkView (List.range 3) [("posts_per_page", "twenty")] ""
      : PostsView Nat).numPages = JNum.nan ∧
    displayPosts (mkView (List.range 3) [("posts_per_page", "twenty")] ""
      : PostsView Nat) = [] :=
  c9_nonnumeric_perpage Nat (List.range 3) [("posts_per_page", "twenty")] ""
    "twenty" rfl (by decide) (by decide)

/-- C10: for a non-empty collection, an integer perPage at least 1 and an
integer pagesFromEnd in [0, numPages - 1], the slice bounds computed by
displayPosts satisfy start < end and end <= count(posts), and the page
renders at least one post. -/
theorem c10_page_nonempty (α : Type) (v : PostsView α) (p f m : Int)
    (hpost : v.posts ≠ []) (hp : v.perPage = JNum.int p) (hp1 : 1 ≤ p)
    (hm : v.numPages = numPagesOf v.posts.length v.perPage)
    (hmi : numPagesOf v.posts.length v.perPage = JNum.int m)
    (hf : v.pagesFromEnd = JNum.int f) (hf0 : 0 ≤ f) (hfm : f ≤ m - 1) :
    jlt (sliceStartJ v) (sliceEndJ v) = true ∧
    jle (sliceEndJ v) (JNum.int (v.posts.length : Int)) = true ∧
    shownPosts v ≠ [] := by
  have hn0 : 0 < v.posts.length := List.length_pos.mpr hpost
  have hp0 : 0 < p := by omega
  have hpne : ¬ p = 0 := by omega
  have hnp : numPagesOf v.posts.length v.perPage =
      JNum.int (-((-(v.posts.length : Int)).fdiv p)) := by
    rw [hp]
    simp [numPagesOf, hpne]
  have hfd : (-(v.posts.length : Int)).fdiv p = -m := by
    rw [hnp] at hmi
    injection hmi with h2
    linarith
  have hkey := Int.lt_fdiv_add_one_mul_self (-(v.posts.length : Int)) hp0
  rw [hfd] at hkey
  have hml : (m - 1) * p < (v.posts.length : Int) := by
    have hrw : (-m + 1) * p = -((m - 1) * p) := by ring
    rw [hrw] at hkey
    linarith
  have hpfle : p * f ≤ p * (m - 1) := mul_le_mul_of_nonneg_left hfm (by omega)
  have hqN : p * f < (v.posts.length : Int) := by
    have hc : p * (m - 1) = (m - 1) * p := mul_comm _ _
    linarith
  have hq0 : (0 : Int) ≤ p * f := mul_nonneg (by omega) hf0
  have hsS : sliceStartJ v =
      JNum.int (max 0 (((v.posts.length : Int) - 1) - (p + p * f))) := by
    simp only [sliceStartJ, hp, hf, jadd, jmul, jsub, jmax]
    exact congrArg JNum.int (congrArg (max 0) (by ring))
  have hsE : sliceEndJ v =
      JNum.int ((1 + ((v.posts.length : Int) - 1)) - p * f) := by
    simp only [sliceEndJ, hp, hf, jmul, jsub]
  have hm1 : 1 ≤ m := by omega
  obtain ⟨q, hq0, hqN, hsS, hsE⟩ :
      ∃ q : Int, 0 ≤ q ∧ q < (v.posts.length : Int) ∧
        sliceStartJ v =
          JNum.int (max 0 (((v.posts.length : Int) - 1) - (p + q))) ∧
        sliceEndJ v = JNum.int ((1 + ((v.posts.length : Int) - 1)) - q) :=
    ⟨p * f, hq0, hqN, hsS, hsE⟩
  refine ⟨?_, ?_, ?_⟩
  · rw [hsS, hsE]
    simp only [jlt, decide_eq_true_eq]
    rw [max_lt_iff]
    constructor <;> omega
  · rw [hsE]
    simp only [jle, decide_eq_true_eq]
    omega
  · have htr : jtruthy v.numPages = true := by
      rw [hm, hmi]
      simp only [jtruthy, bne_iff_ne, ne_eq, decide_eq_true_eq]
      omega
    rw [shownPosts_of_truthy v htr, hsS, hsE]
    unfold jsSlice
    simp only [jsSliceIndex]
    rw [if_neg (not_lt.mpr (le_max_left 0 _)), if_neg (by omega)]
    rw [← List.length_pos]
    simp only [List.length_drop, List.length_take]
    omega

/-- Witness for C10: the example state (45 posts, perPage 20, pagesFromEnd
0, numPages 3) has start 24 < end 45 <= 45 and renders posts. -/
theorem c10_page_nonempty_witness :
    jlt (sliceStartJ viewLast) (sliceEndJ viewLast) = true ∧
    jle (sliceEndJ viewLast) (JNum.int (viewLast.posts.length : Int)) = true ∧
    shownPosts viewLast ≠ [] :=
  c10_page_nonempty Nat viewLast 20 0 3 (by decide) (by decide) (by decide)
    rfl (by decide) (by decide) (by decide) (by decide)

end GgPosts
